import Mathlib

/-!
Shallow embedding of the fallback-coordination logic of the kst-fun-metro
repository.

The coordinator is the `App` component (src/unnamed/part_001): two fixed
slots, `legacy` (registered first) and `fabric` (registered second), each
with a primary (native) handle ref and a fallback handle ref, a boolean
availability flag per slot, and the handlers `handleLegacyChange`,
`handleFabricChange` and `clearInputs`.  The child wrapper components
(src/unnamed/part_003 and src/specs/JSINewArchitecture/NativeTextInput.tsx)
expose an imperative handle built with `useImperativeHandle`; its `focus`,
`clear` and `isFocused` methods are embedded below as `wrapperFocus`,
`wrapperClear` and `wrapperIsFocused`.

Handle calls may raise: a `Handle` carries flags saying whether its
`focus()` / `clear()` raises when invoked.  Each embedded operation returns
the calls it performed (in order) together with a flag telling whether an
uncaught exception escaped the operation; statements after an uncaught
raise are not executed, matching JavaScript control flow.
-/

namespace Metro

/-- Behaviour of one handle object (an `ExtendedTextInputHandle` or a
fallback `TextInput` ref target): whether calling `focus()` resp. `clear()`
through it raises an exception. -/
structure Handle where
  focusThrows : Bool
  clearThrows : Bool
deriving DecidableEq

/-- Identifies which of the four handle refs of `App` a call went through:
`legacyInputRef`, `legacyFallbackRef`, `fabricInputRef`, `fabricFallbackRef`
(src/unnamed/part_001 lines 51-54). -/
inductive HandleId where
  | legacyPrimary
  | legacyFallback
  | fabricPrimary
  | fabricFallback
deriving DecidableEq

/-- An observable action of the coordinator: a `focus()` call through a
handle, a `clear()` call through a handle, or a `console.warn` diagnostic. -/
inductive Call where
  | focus (target : HandleId)
  | clear (target : HandleId)
  | warn
deriving DecidableEq

/-- The state of the `App` component (src/unnamed/part_001 lines 47-54):
the two text states, the two availability booleans, and the four refs.
A ref whose `current` is null is `none`. -/
structure AppState where
  legacyText : String
  fabricText : String
  isLegacyNativeAvailable : Bool
  isFabricNativeAvailable : Bool
  legacyInputRef : Option Handle
  fabricInputRef : Option Handle
  legacyFallbackRef : Option Handle
  fabricFallbackRef : Option Handle
deriving DecidableEq

/-- The initial state of `App`: `useState('')` for both texts,
`useState(true)` for both availability flags (src/unnamed/part_001
lines 47-50), and all refs start as null (`useRef(null)`). -/
def initialAppState : AppState :=
  { legacyText := ""
    fabricText := ""
    isLegacyNativeAvailable := true
    isFabricNativeAvailable := true
    legacyInputRef := none
    fabricInputRef := none
    legacyFallbackRef := none
    fabricFallbackRef := none }

/-- `setIsLegacyNativeAvailable`, the state setter the legacy child reports
availability through (`onNativeStatusChange={setIsLegacyNativeAvailable}`,
src/unnamed/part_001 line 162). -/
def setIsLegacyNativeAvailable (s : AppState) (v : Bool) : AppState :=
  { s with isLegacyNativeAvailable := v }

/-- `setIsFabricNativeAvailable`, the state setter the fabric child reports
availability through (src/unnamed/part_001 line 194). -/
def setIsFabricNativeAvailable (s : AppState) (v : Bool) : AppState :=
  { s with isFabricNativeAvailable := v }

/-- Result of running one synchronous handler: the state after its
`setState` calls, the handle calls and diagnostics it performed in order,
and whether an uncaught exception escaped it. -/
structure StepResult where
  state : AppState
  trace : List Call
  raised : Bool
deriving DecidableEq

/-- `handleLegacyChange` (src/unnamed/part_001 lines 60-70):
sets `legacyText` to `text`; if `text === ''` and `fabricText !== ''`,
focuses the fabric input — `fabricInputRef.current?.focus()` when
`isFabricNativeAvailable`, else `fabricFallbackRef.current?.focus()`.
Optional chaining means a null ref performs no call.  The `focus()` call is
not wrapped in try/catch, so if it raises the exception escapes. -/
def handleLegacyChange (s : AppState) (text : String) : StepResult :=
  let s1 := { s with legacyText := text }
  if text = "" ∧ s.fabricText ≠ "" then
    if s.isFabricNativeAvailable then
      match s.fabricInputRef with
      | some h => { state := s1, trace := [Call.focus HandleId.fabricPrimary], raised := h.focusThrows }
      | none => { state := s1, trace := [], raised := false }
    else
      match s.fabricFallbackRef with
      | some h => { state := s1, trace := [Call.focus HandleId.fabricFallback], raised := h.focusThrows }
      | none => { state := s1, trace := [], raised := false }
  else
    { state := s1, trace := [], raised := false }

/-- `handleFabricChange` (src/unnamed/part_001 lines 72-82): the mirror
image of `handleLegacyChange`. -/
def handleFabricChange (s : AppState) (text : String) : StepResult :=
  let s1 := { s with fabricText := text }
  if text = "" ∧ s.legacyText ≠ "" then
    if s.isLegacyNativeAvailable then
      match s.legacyInputRef with
      | some h => { state := s1, trace := [Call.focus HandleId.legacyPrimary], raised := h.focusThrows }
      | none => { state := s1, trace := [], raised := false }
    else
      match s.legacyFallbackRef with
      | some h => { state := s1, trace := [Call.focus HandleId.legacyFallback], raised := h.focusThrows }
      | none => { state := s1, trace := [], raised := false }
  else
    { state := s1, trace := [], raised := false }

/-- One slot's clearing step inside `clearInputs`
(src/unnamed/part_001 lines 98-106 for legacy, 108-116 for fabric):
`if (avail && primaryRef.current) { try { primary.clear() } catch (e)
{ console.warn(...) } } else if (fallbackRef.current)
{ fallback.clear() }`.  Only the primary `clear()` is inside try/catch;
a raise from the fallback `clear()` is uncaught.  Returns the calls made
and whether an uncaught exception escaped this step. -/
def clearSlotCalls (avail : Bool) (primaryRef fallbackRef : Option Handle)
    (primaryId fallbackId : HandleId) : List Call × Bool :=
  match avail, primaryRef with
  | true, some h =>
      (if h.clearThrows then [Call.clear primaryId, Call.warn] else [Call.clear primaryId], false)
  | _, _ =>
      match fallbackRef with
      | some h => ([Call.clear fallbackId], h.clearThrows)
      | none => ([], false)

/-- The deferred focus scheduled by `clearInputs` via `setTimeout(..., 100)`
(src/unnamed/part_001 lines 119-125).  The callback's closure captures the
render's `isLegacyNativeAvailable` value; the refs are read only when the
callback fires. -/
structure DeferredFocus where
  capturedLegacyAvailable : Bool
  delayMs : Nat
deriving DecidableEq

/-- Result of `clearInputs`: the state after the `setState` calls, the
calls performed, the scheduled deferred focus (if execution reached the
`setTimeout`), and whether an uncaught exception escaped. -/
structure ClearResult where
  state : AppState
  trace : List Call
  deferred : Option DeferredFocus
  raised : Bool
deriving DecidableEq

/-- `clearInputs` (src/unnamed/part_001 lines 92-126): sets both texts to
`''` first, then clears the legacy slot, then the fabric slot (each per
`clearSlotCalls`), then schedules the deferred focus with a 100 ms delay.
An uncaught raise in an earlier step prevents the later steps, as in
JavaScript. -/
def clearInputs (s : AppState) : ClearResult :=
  let s1 := { s with legacyText := "", fabricText := "" }
  let legacyStep := clearSlotCalls s.isLegacyNativeAvailable s.legacyInputRef
    s.legacyFallbackRef HandleId.legacyPrimary HandleId.legacyFallback
  if legacyStep.2 then
    { state := s1, trace := legacyStep.1, deferred := none, raised := true }
  else
    let fabricStep := clearSlotCalls s.isFabricNativeAvailable s.fabricInputRef
      s.fabricFallbackRef HandleId.fabricPrimary HandleId.fabricFallback
    if fabricStep.2 then
      { state := s1, trace := legacyStep.1 ++ fabricStep.1, deferred := none, raised := true }
    else
      { state := s1
        trace := legacyStep.1 ++ fabricStep.1
        deferred := some { capturedLegacyAvailable := s.isLegacyNativeAvailable, delayMs := 100 }
        raised := false }

/-- Firing of the deferred callback of `clearInputs`
(src/unnamed/part_001 lines 119-125): `if (isLegacyNativeAvailable)
{ legacyInputRef.current?.focus() } else
{ legacyFallbackRef.current?.focus() }`, where the ref contents are those
at fire time.  A null ref means no call at all (optional chaining). -/
def fireDeferredFocus (d : DeferredFocus)
    (legacyInputRefNow legacyFallbackRefNow : Option Handle) : List Call × Bool :=
  if d.capturedLegacyAvailable then
    match legacyInputRefNow with
    | some h => ([Call.focus HandleId.legacyPrimary], h.focusThrows)
    | none => ([], false)
  else
    match legacyFallbackRefNow with
    | some h => ([Call.focus HandleId.legacyFallback], h.focusThrows)
    | none => ([], false)

/-- Number of times a `useEffect` with a single dependency fires across a
sequence of renders whose dependency values are the given list: once on
mount, then once per render where the value differs from the previous
render's value.  This is React's dependency comparison for the effect
`useEffect(() => { onNativeStatusChange?.(isNativeAvailable) },
[isNativeAvailable, onNativeStatusChange])`
(src/unnamed/part_003 lines 96-98). -/
def countDepChanges : Bool → List Bool → Nat
  | _, [] => 0
  | prev, d :: rest => (if d ≠ prev then 1 else 0) + countDepChanges d rest

/-- Total notifications delivered to the parent over a render sequence:
see `countDepChanges`. -/
def effectNotifications : List Bool → Nat
  | [] => 0
  | d :: rest => 1 + countDepChanges d rest

/-- The underlying `TextInput` instance behind the child wrapper's
`textInputRef` (src/unnamed/part_003 line 90): whether the `clear` and
`setNativeProps` methods exist on it (both optional-chained in the source),
and the value its `isFocused()` reports. -/
structure InnerTextInput where
  hasClear : Bool
  hasSetNativeProps : Bool
  focusedNow : Bool
deriving DecidableEq

/-- A call made through `textInputRef.current` by the wrapper's imperative
handle. -/
inductive InnerCall where
  | focus
  | clear
  | setNativeProps (text : String)
deriving DecidableEq

/-- `focus: () => textInputRef.current?.focus()`
(src/unnamed/part_003 line 107): no call when the ref is null. -/
def wrapperFocus : Option InnerTextInput → List InnerCall
  | none => []
  | some _ => [InnerCall.focus]

/-- `clear: () => textInputRef.current?.clear?.() ||
textInputRef.current?.setNativeProps?.({ text: '' })`
(src/unnamed/part_003 lines 108-110).  The left operand evaluates to
`undefined` in every case — the ref may be null, `clear` may be absent, and
a performed `clear()` returns `undefined` — and `undefined` is falsy, so
the `||` operator always goes on to evaluate the right operand too. -/
def wrapperClear (ref : Option InnerTextInput) : List InnerCall :=
  let leftCalls : List InnerCall :=
    match ref with
    | some inp => if inp.hasClear then [InnerCall.clear] else []
    | none => []
  let rightCalls : List InnerCall :=
    match ref with
    | some inp => if inp.hasSetNativeProps then [InnerCall.setNativeProps ""] else []
    | none => []
  leftCalls ++ rightCalls

/-- `isFocused: () => textInputRef.current?.isFocused() ?? false`
(src/unnamed/part_003 line 111). -/
def wrapperIsFocused : Option InnerTextInput → Bool
  | none => false
  | some inp => inp.focusedNow

/-- Tri-state availability of the specification's data model (spec §3). -/
inductive Availability where
  | unknown
  | available
  | unavailable
deriving DecidableEq

/-- A slot of the specification's coordinator (spec §3). -/
structure Slot where
  identity : String
  availability : Availability
  currentText : String
deriving DecidableEq

/-- A focus command of the specification's coordinator, targeting either a
slot's primary handle or its fallback handle. -/
inductive SpecFocusCommand where
  | primaryOf (identity : String)
  | fallbackOf (identity : String)
deriving DecidableEq

/-- The specification's N-slot coordinator state: the slots in registration
order. -/
structure SpecCoordinator where
  slots : List Slot
deriving DecidableEq

/-- Modelled from the spec: the repository's code (src/unnamed/part_001)
has only the fixed two-slot `App`; the N-slot auto-advance rule with the
lowest-registration-order tie-break exists only in spec §4.2:
"`on_text_changed(slot_id, new_text)`: updates `currentText` for the slot.
Then ... if `new_text` is empty AND there exists [an]other registered slot
whose `currentText` is non-empty, issue a focus command to that other
slot's handle.  Tie-break when more than one other slot has non-empty text:
focus the slot with the lowest registration order (first-registered wins).
If the target slot's `availability` is `unavailable`, the focus command
targets the fallback handle". -/
def specOnTextChanged (c : SpecCoordinator) (sid : String) (t : String) :
    SpecCoordinator × List SpecFocusCommand :=
  let slots1 := c.slots.map fun sl =>
    if sl.identity = sid then { sl with currentText := t } else sl
  let c1 : SpecCoordinator := { slots := slots1 }
  if t = "" then
    match slots1.find? fun sl => decide (sl.identity ≠ sid ∧ sl.currentText ≠ "") with
    | some target =>
        (c1, [if target.availability = Availability.unavailable
              then SpecFocusCommand.fallbackOf target.identity
              else SpecFocusCommand.primaryOf target.identity])
    | none => (c1, [])
  else
    (c1, [])

/-! ## Helper lemmas -/

/-- `handleLegacyChange` always leaves the state with `legacyText` set to
the new text, whatever branch it takes. -/
theorem handleLegacyChange_state (s : AppState) (t : String) :
    (handleLegacyChange s t).state = { s with legacyText := t } := by
  unfold handleLegacyChange
  repeat' split
  all_goals rfl

/-- `handleFabricChange` always leaves the state with `fabricText` set to
the new text, whatever branch it takes. -/
theorem handleFabricChange_state (s : AppState) (t : String) :
    (handleFabricChange s t).state = { s with fabricText := t } := by
  unfold handleFabricChange
  repeat' split
  all_goals rfl

/-! ## Claim theorems -/

/-- Claim C1: with the other slot's text non-empty, `on_text_changed` of a
slot with empty text issues exactly one focus command, to the other slot's
primary handle when it is available and to its fallback handle when it is
not (both directions of src/unnamed/part_001 lines 60-82). -/
theorem c1_auto_advance_targets_active_handle :
    (∀ (s : AppState) (h : Handle), s.legacyText ≠ "" →
      s.isLegacyNativeAvailable = true → s.legacyInputRef = some h →
      (handleFabricChange s "").trace = [Call.focus HandleId.legacyPrimary]) ∧
    (∀ (s : AppState) (h : Handle), s.legacyText ≠ "" →
      s.isLegacyNativeAvailable = false → s.legacyFallbackRef = some h →
      (handleFabricChange s "").trace = [Call.focus HandleId.legacyFallback]) ∧
    (∀ (s : AppState) (h : Handle), s.fabricText ≠ "" →
      s.isFabricNativeAvailable = true → s.fabricInputRef = some h →
      (handleLegacyChange s "").trace = [Call.focus HandleId.fabricPrimary]) ∧
    (∀ (s : AppState) (h : Handle), s.fabricText ≠ "" →
      s.isFabricNativeAvailable = false → s.fabricFallbackRef = some h →
      (handleLegacyChange s "").trace = [Call.focus HandleId.fabricFallback]) := by
  refine ⟨?_, ?_, ?_, ?_⟩ <;>
    · intro s h hne hav href
      simp [handleFabricChange, handleLegacyChange, hne, hav, href]

/-- State with non-empty legacy text, legacy native available, legacy
primary handle mounted. -/
def c1StateNativeLegacy : AppState :=
  { legacyText := "hello", fabricText := "", isLegacyNativeAvailable := true,
    isFabricNativeAvailable := true, legacyInputRef := some ⟨false, false⟩,
    fabricInputRef := none, legacyFallbackRef := none, fabricFallbackRef := none }

/-- State with non-empty legacy text, legacy native unavailable, legacy
fallback handle mounted. -/
def c1StateFallbackLegacy : AppState :=
  { legacyText := "hello", fabricText := "", isLegacyNativeAvailable := false,
    isFabricNativeAvailable := true, legacyInputRef := none,
    fabricInputRef := none, legacyFallbackRef := some ⟨false, false⟩,
    fabricFallbackRef := none }

/-- State with non-empty fabric text, fabric native available, fabric
primary handle mounted. -/
def c1StateNativeFabric : AppState :=
  { legacyText := "", fabricText := "world", isLegacyNativeAvailable := true,
    isFabricNativeAvailable := true, legacyInputRef := none,
    fabricInputRef := some ⟨false, false⟩, legacyFallbackRef := none,
    fabricFallbackRef := none }

/-- State with non-empty fabric text, fabric native unavailable, fabric
fallback handle mounted. -/
def c1StateFallbackFabric : AppState :=
  { legacyText := "", fabricText := "world", isLegacyNativeAvailable := true,
    isFabricNativeAvailable := false, legacyInputRef := none,
    fabricInputRef := none, legacyFallbackRef := none,
    fabricFallbackRef := some ⟨false, false⟩ }

/-- Witness for C1 at concrete states, one per case. -/
theorem c1_witness :
    (handleFabricChange c1StateNativeLegacy "").trace = [Call.focus HandleId.legacyPrimary] ∧
    (handleFabricChange c1StateFallbackLegacy "").trace = [Call.focus HandleId.legacyFallback] ∧
    (handleLegacyChange c1StateNativeFabric "").trace = [Call.focus HandleId.fabricPrimary] ∧
    (handleLegacyChange c1StateFallbackFabric "").trace = [Call.focus HandleId.fabricFallback] :=
  ⟨c1_auto_advance_targets_active_handle.1 c1StateNativeLegacy ⟨false, false⟩
      (by decide) rfl rfl,
   c1_auto_advance_targets_active_handle.2.1 c1StateFallbackLegacy ⟨false, false⟩
      (by decide) rfl rfl,
   c1_auto_advance_targets_active_handle.2.2.1 c1StateNativeFabric ⟨false, false⟩
      (by decide) rfl rfl,
   c1_auto_advance_targets_active_handle.2.2.2 c1StateFallbackFabric ⟨false, false⟩
      (by decide) rfl rfl⟩

/-- State for the C2 counterexample: the legacy slot is on its fallback
path and the fallback handle's `clear()` raises, while the fabric slot has
a mounted primary handle. -/
def c2FallbackThrowState : AppState :=
  { legacyText := "hello", fabricText := "world",
    isLegacyNativeAvailable := false, isFabricNativeAvailable := true,
    legacyInputRef := none, fabricInputRef := some ⟨false, false⟩,
    legacyFallbackRef := some ⟨false, true⟩, fabricFallbackRef := none }

/-- Counterexample to claim C2 as stated: with the legacy slot on its
fallback handle whose `clear()` raises, `clearInputs` does NOT call
`clear()` on the other (fabric) slot's handle, the exception escapes, and
no deferred focus is scheduled — the fallback `clear()` at
src/unnamed/part_001 line 105 is outside any try/catch. -/
theorem c2_counterexample :
    (clearInputs c2FallbackThrowState).raised = true ∧
    Call.clear HandleId.fabricPrimary ∉ (clearInputs c2FallbackThrowState).trace ∧
    (clearInputs c2FallbackThrowState).deferred = none ∧
    c2FallbackThrowState.fabricInputRef.isSome = true := by decide

/-- Claim C2 (amended): `clearInputs` resets both texts to empty first;
when both slots are on their primary (native) handles, `clear()` is called
on both handles even if either primary `clear()` raises (the raise is
caught and turned into a warning), the deferred focus is scheduled with the
100 ms delay capturing the legacy availability, and when it fires with the
legacy primary handle mounted it performs exactly one `focus()` call on it.
A raise from a fallback handle's `clear()` instead escapes and aborts the
remaining steps (see the counterexample). -/
theorem c2_clear_all_native_paths (s : AppState) (hl hf : Handle)
    (hLA : s.isLegacyNativeAvailable = true) (hLR : s.legacyInputRef = some hl)
    (hFA : s.isFabricNativeAvailable = true) (hFR : s.fabricInputRef = some hf) :
    (clearInputs s).state.legacyText = "" ∧
    (clearInputs s).state.fabricText = "" ∧
    (clearInputs s).raised = false ∧
    (clearInputs s).trace =
      (if hl.clearThrows then [Call.clear HandleId.legacyPrimary, Call.warn]
        else [Call.clear HandleId.legacyPrimary]) ++
      (if hf.clearThrows then [Call.clear HandleId.fabricPrimary, Call.warn]
        else [Call.clear HandleId.fabricPrimary]) ∧
    (clearInputs s).deferred = some { capturedLegacyAvailable := true, delayMs := 100 } ∧
    (∀ (g : Handle) (fb : Option Handle),
      fireDeferredFocus { capturedLegacyAvailable := true, delayMs := 100 } (some g) fb
        = ([Call.focus HandleId.legacyPrimary], g.focusThrows)) := by
  obtain ⟨hlf, hlc⟩ := hl
  obtain ⟨hff, hfc⟩ := hf
  cases hlc <;> cases hfc <;>
    simp [clearInputs, clearSlotCalls, fireDeferredFocus, hLA, hLR, hFA, hFR]

/-- State exercising the C2 amended theorem: both slots native, the legacy
primary handle's `clear()` raises. -/
def c2WitnessState : AppState :=
  { legacyText := "a", fabricText := "b",
    isLegacyNativeAvailable := true, isFabricNativeAvailable := true,
    legacyInputRef := some ⟨false, true⟩, fabricInputRef := some ⟨false, false⟩,
    legacyFallbackRef := none, fabricFallbackRef := none }

/-- Witness for C2 at a concrete state in which the legacy primary
`clear()` raises. -/
theorem c2_witness :
    (clearInputs c2WitnessState).state.legacyText = "" ∧
    (clearInputs c2WitnessState).state.fabricText = "" ∧
    (clearInputs c2WitnessState).raised = false ∧
    (clearInputs c2WitnessState).trace =
      [Call.clear HandleId.legacyPrimary, Call.warn] ++ [Call.clear HandleId.fabricPrimary] ∧
    (clearInputs c2WitnessState).deferred
      = some { capturedLegacyAvailable := true, delayMs := 100 } ∧
    (∀ (g : Handle) (fb : Option Handle),
      fireDeferredFocus { capturedLegacyAvailable := true, delayMs := 100 } (some g) fb
        = ([Call.focus HandleId.legacyPrimary], g.focusThrows)) := by
  have h := c2_clear_all_native_paths c2WitnessState ⟨false, true⟩ ⟨false, false⟩ rfl rfl rfl rfl
  simpa using h

/-- State for the C3 counterexample: `handleFabricChange` will focus the
legacy primary handle, whose `focus()` raises. -/
def c3FocusThrowState : AppState :=
  { legacyText := "hello", fabricText := "world",
    isLegacyNativeAvailable := true, isFabricNativeAvailable := true,
    legacyInputRef := some ⟨true, false⟩, fabricInputRef := some ⟨false, false⟩,
    legacyFallbackRef := none, fabricFallbackRef := none }

/-- Counterexample to claim C3 as stated: an exception raised by a
`focus()` call inside `on_text_changed` is not caught and not turned into
a warning — it propagates to the caller (the `focus()` calls at
src/unnamed/part_001 lines 65, 67, 77, 79 have no try/catch). -/
theorem c3_counterexample :
    (handleFabricChange c3FocusThrowState "").raised = true ∧
    Call.warn ∉ (handleFabricChange c3FocusThrowState "").trace := by decide

/-- Claim C3 (amended): only the primary handle `clear()` calls of
`clearInputs` are caught — such a raise is downgraded to a warning and does
not stop the other slot from being cleared; a raise from a fallback
handle's `clear()` inside `clearInputs` escapes uncaught, and a raise from
a `focus()` call inside `on_text_changed` escapes uncaught. -/
theorem c3_exception_scope :
    (∀ (s : AppState) (hl hf : Handle),
      s.isLegacyNativeAvailable = true → s.legacyInputRef = some hl →
      hl.clearThrows = true →
      s.isFabricNativeAvailable = true → s.fabricInputRef = some hf →
      (clearInputs s).raised = false ∧
      Call.warn ∈ (clearInputs s).trace ∧
      Call.clear HandleId.fabricPrimary ∈ (clearInputs s).trace) ∧
    (∀ (s : AppState) (hfb : Handle),
      s.isLegacyNativeAvailable = false → s.legacyFallbackRef = some hfb →
      hfb.clearThrows = true →
      (clearInputs s).raised = true) ∧
    (∀ (s : AppState) (hl : Handle),
      s.legacyText ≠ "" → s.isLegacyNativeAvailable = true →
      s.legacyInputRef = some hl → hl.focusThrows = true →
      (handleFabricChange s "").raised = true) := by
  refine ⟨?_, ?_, ?_⟩
  · intro s hl hf h1 h2 h3 h4 h5
    obtain ⟨hff, hfc⟩ := hf
    cases hfc <;> simp [clearInputs, clearSlotCalls, h1, h2, h3, h4, h5]
  · intro s hfb h1 h2 h3
    cases href : s.legacyInputRef <;>
      simp [clearInputs, clearSlotCalls, h1, h2, h3, href]
  · intro s hl h1 h2 h3 h4
    simp [handleFabricChange, h1, h2, h3, h4]

/-- State exercising conjunct two of the C3 theorem: legacy on the
fallback path with a raising `clear()`. -/
def c3FallbackThrowState : AppState :=
  { legacyText := "a", fabricText := "b",
    isLegacyNativeAvailable := false, isFabricNativeAvailable := true,
    legacyInputRef := none, fabricInputRef := some ⟨false, false⟩,
    legacyFallbackRef := some ⟨false, true⟩, fabricFallbackRef := none }

/-- State exercising conjunct one of the C3 theorem: both slots native,
legacy primary `clear()` raises. -/
def c3PrimaryThrowState : AppState :=
  { legacyText := "a", fabricText := "b",
    isLegacyNativeAvailable := true, isFabricNativeAvailable := true,
    legacyInputRef := some ⟨false, true⟩, fabricInputRef := some ⟨false, false⟩,
    legacyFallbackRef := none, fabricFallbackRef := none }

/-- Witness for C3 at concrete states, one per conjunct. -/
theorem c3_witness :
    ((clearInputs c3PrimaryThrowState).raised = false ∧
      Call.warn ∈ (clearInputs c3PrimaryThrowState).trace ∧
      Call.clear HandleId.fabricPrimary ∈ (clearInputs c3PrimaryThrowState).trace) ∧
    (clearInputs c3FallbackThrowState).raised = true ∧
    (handleFabricChange c3FocusThrowState "").raised = true :=
  ⟨c3_exception_scope.1 c3PrimaryThrowState ⟨false, true⟩ ⟨false, false⟩ rfl rfl rfl rfl rfl,
   c3_exception_scope.2.1 c3FallbackThrowState ⟨false, true⟩ rfl rfl rfl,
   c3_exception_scope.2.2 c3FocusThrowState ⟨true, false⟩ (by decide) rfl rfl rfl⟩

/-- State for the C4 counterexample: legacy text already empty, fabric text
non-empty, fabric primary handle mounted. -/
def c4RepeatState : AppState :=
  { legacyText := "", fabricText := "world",
    isLegacyNativeAvailable := true, isFabricNativeAvailable := true,
    legacyInputRef := none, fabricInputRef := some ⟨false, false⟩,
    legacyFallbackRef := none, fabricFallbackRef := none }

/-- Counterexample to claim C4 as stated: two successive identical calls
`handleLegacyChange(s, "")` each issue a focus command — the guard at
src/unnamed/part_001 line 63 tests only the incoming text, not a
transition of the previous `legacyText`, so the second (and every further)
identical call issues an additional focus command. -/
theorem c4_counterexample :
    (handleLegacyChange c4RepeatState "").trace = [Call.focus HandleId.fabricPrimary] ∧
    (handleLegacyChange (handleLegacyChange c4RepeatState "").state "").trace
      = [Call.focus HandleId.fabricPrimary] := by decide

/-- Claim C4 (amended): a repeated `on_text_changed(S, sameText)` call
issues exactly the same focus commands as the first call — none when
`sameText` is non-empty, but one focus command per call (not only on the
first) when `sameText` is empty and the other slot's text is non-empty:
the rule fires on every empty-text event, not only on a transition to
empty. -/
theorem c4_repeat_fires_per_empty_event (s : AppState) (t : String) :
    (handleLegacyChange (handleLegacyChange s t).state t).trace
      = (handleLegacyChange s t).trace ∧
    (handleFabricChange (handleFabricChange s t).state t).trace
      = (handleFabricChange s t).trace ∧
    (t ≠ "" → (handleLegacyChange s t).trace = [] ∧ (handleFabricChange s t).trace = []) := by
  refine ⟨?_, ?_, ?_⟩
  · rw [handleLegacyChange_state]; rfl
  · rw [handleFabricChange_state]; rfl
  · intro h
    constructor <;> simp [handleLegacyChange, handleFabricChange, h]

/-- Witness for C4 at a concrete state and a concrete non-empty text. -/
theorem c4_witness :
    (handleLegacyChange (handleLegacyChange c4RepeatState "x").state "x").trace
      = (handleLegacyChange c4RepeatState "x").trace ∧
    (handleLegacyChange c4RepeatState "x").trace = [] := by
  have h := c4_repeat_fires_per_empty_event c4RepeatState "x"
  exact ⟨h.1, (h.2.2 (by decide)).1⟩

/-- Counterexample to claim C5 as stated: the never-reported availability
of the legacy slot is the boolean `true` (available), not a tri-state
`unknown` — `useState(true)` at src/unnamed/part_001 line 49. -/
theorem c5_counterexample :
    initialAppState.isLegacyNativeAvailable = true := rfl

/-- Claim C5 (amended): availability is a two-valued boolean, not a
tri-state; before any report both slots' availability flags read `true`
(available) — there is no distinct `unknown` value — and a report simply
overwrites the boolean. -/
theorem c5_availability_defaults_to_available :
    initialAppState.isLegacyNativeAvailable = true ∧
    initialAppState.isFabricNativeAvailable = true ∧
    (∀ (s : AppState) (v : Bool),
      (setIsLegacyNativeAvailable s v).isLegacyNativeAvailable = v ∧
      (setIsFabricNativeAvailable s v).isFabricNativeAvailable = v) :=
  ⟨rfl, rfl, fun _ _ => ⟨rfl, rfl⟩⟩

/-- Claim C6: reporting availability `v` for a slot and then querying it
returns `v`; and across two renders whose effect dependency is the same
value `v`, the `useEffect` of the child wrapper notifies the parent exactly
once (src/unnamed/part_001 lines 49-50, src/unnamed/part_003
lines 96-98). -/
theorem c6_report_then_query_single_notification (s : AppState) (v : Bool) :
    (setIsLegacyNativeAvailable s v).isLegacyNativeAvailable = v ∧
    (setIsFabricNativeAvailable s v).isFabricNativeAvailable = v ∧
    effectNotifications [v, v] = 1 := by
  refine ⟨rfl, rfl, ?_⟩
  cases v <;> rfl

/-- Claim C7: a deferred `clearInputs` focus callback that fires when both
legacy refs are null (the slot's widgets unmounted) performs no handle
call at all and raises nothing — the optional chaining at
src/unnamed/part_001 lines 121 and 123 detects the stale target. -/
theorem c7_stale_callback_performs_no_calls (d : DeferredFocus) :
    fireDeferredFocus d none none = ([], false) := by
  obtain ⟨avail, ms⟩ := d
  cases avail <;> rfl

/-- Claim C8: in the spec-modelled N-slot coordinator with slots A, B, C
registered in that order and all texts non-empty, `on_text_changed(C, "")`
issues exactly one focus command, to A (primary or fallback according to
A's availability), and never to B. -/
theorem c8_three_slot_tie_break (ta tb tc : String) (aa ab ac : Availability)
    (hta : ta ≠ "") (htb : tb ≠ "") (htc : tc ≠ "") :
    (specOnTextChanged ⟨[⟨"A", aa, ta⟩, ⟨"B", ab, tb⟩, ⟨"C", ac, tc⟩]⟩ "C" "").2
      = [if aa = Availability.unavailable then SpecFocusCommand.fallbackOf "A"
          else SpecFocusCommand.primaryOf "A"] ∧
    SpecFocusCommand.primaryOf "B"
      ∉ (specOnTextChanged ⟨[⟨"A", aa, ta⟩, ⟨"B", ab, tb⟩, ⟨"C", ac, tc⟩]⟩ "C" "").2 ∧
    SpecFocusCommand.fallbackOf "B"
      ∉ (specOnTextChanged ⟨[⟨"A", aa, ta⟩, ⟨"B", ab, tb⟩, ⟨"C", ac, tc⟩]⟩ "C" "").2 := by
  cases aa <;>
    refine ⟨?_, ?_, ?_⟩ <;>
    simp [specOnTextChanged, List.find?, hta, htb]

/-- Witness for C8 at concrete texts and availabilities. -/
theorem c8_witness :
    (specOnTextChanged
        ⟨[⟨"A", Availability.available, "a"⟩, ⟨"B", Availability.available, "b"⟩,
          ⟨"C", Availability.available, "c"⟩]⟩ "C" "").2
      = [SpecFocusCommand.primaryOf "A"] ∧
    SpecFocusCommand.primaryOf "B"
      ∉ (specOnTextChanged
          ⟨[⟨"A", Availability.available, "a"⟩, ⟨"B", Availability.available, "b"⟩,
            ⟨"C", Availability.available, "c"⟩]⟩ "C" "").2 := by
  have h := c8_three_slot_tie_break "a" "b" "c"
    Availability.available Availability.available Availability.available
    (by decide) (by decide) (by decide)
  exact ⟨by simpa using h.1, h.2.1⟩

/-- Claim C9: the wrapper handle's `clear()` — `textInputRef.current?.clear?.()
|| textInputRef.current?.setNativeProps?.({ text: '' })` — invokes both the
underlying `clear()` and `setNativeProps({ text: '' })` whenever the
underlying input is mounted and has both methods, because the performed
`clear()` returns `undefined`, which is falsy
(src/unnamed/part_003 lines 108-110). -/
theorem c9_wrapper_clear_calls_both (inp : InnerTextInput)
    (h1 : inp.hasClear = true) (h2 : inp.hasSetNativeProps = true) :
    wrapperClear (some inp) = [InnerCall.clear, InnerCall.setNativeProps ""] := by
  simp [wrapperClear, h1, h2]

/-- Witness for C9 at a concrete mounted input with both methods. -/
theorem c9_witness :
    wrapperClear (some ⟨true, true, false⟩)
      = [InnerCall.clear, InnerCall.setNativeProps ""] :=
  c9_wrapper_clear_calls_both ⟨true, true, false⟩ rfl rfl

/-- Claim C10: with the underlying ref null (widget unmounted), every
wrapper handle method is a total no-op: `focus()` and `clear()` perform no
calls, and `isFocused()` returns `false`
(src/unnamed/part_003 lines 104-115). -/
theorem c10_unmounted_wrapper_handle_total :
    wrapperFocus none = [] ∧ wrapperClear none = [] ∧ wrapperIsFocused none = false :=
  ⟨rfl, rfl, rfl⟩

end Metro
